import Mathlib

/-!
Shallow embedding of the argmin observer pipeline
(src/argmin/src/core/observers/mod.rs) and of the Simulated Annealing solver
(src/argmin/src/solver/simulatedannealing/mod.rs), together with theorems
settling the specification claims about them.

Modelling conventions:
* Rust `u64` values are modelled as `Nat`; `std::u64::MAX` is `U64MAX`.
* Rust `f64` values are modelled as real numbers (`ℝ`); `f64::exp`, `f64::ln`
  and `f64::powf` become `Real.exp`, `Real.log` and `Real.rpow`.
* Fallible Rust code (`Result<_, Error>`) is modelled with `Except`.
* A Rust panic (`unwrap` on `None`, or `%` by zero on `u64`) is modelled by a
  dedicated constructor (`DispatchOutcome.panicked`, `SAErr.panicked`).
* The solver's RNG is modelled as a stream of real samples together with a
  position; `rng.gen()` reads the sample at the current position and advances
  the position by one.
-/

namespace Argmin


/-- `ObserverMode` from observers/mod.rs: when to call an observer. -/
inductive ObserverMode where
  | Never : ObserverMode
  | Always : ObserverMode
  | Every : Nat → ObserverMode
  | NewBest : ObserverMode
  deriving DecidableEq, Repr

/-- The `Default` impl for `ObserverMode` is `Always`. -/
def ObserverMode.default : ObserverMode := ObserverMode.Always

/-- The part of the `State` capability consumed by observer dispatch:
`get_iter()` and `is_best()`. -/
structure ObsSt where
  iter : Nat
  is_best : Bool
  deriving DecidableEq, Repr

/-- An observer (the `Observe` trait): its `observe_init` result as a function
of the solver name, and its `observe_iter` result as a function of the
observed state. -/
structure ObsBehavior (E : Type) where
  on_init : String → Except E Unit
  on_iter : ObsSt → Except E Unit

/-- `Observers<I>`: the ordered list of `(observer, mode)` registration
records. -/
abbrev Observers (E : Type) := List (ObsBehavior E × ObserverMode)

/-- `Observers::new()`. -/
def Observers.new (E : Type) : Observers E := []

/-- `Observers::push`: appends the `(observer, mode)` pair; performs no
validation of the mode. -/
def Observers.push {E : Type} (l : Observers E) (o : ObsBehavior E)
    (m : ObserverMode) : Observers E :=
  l ++ [(o, m)]

/-- `Observers::is_empty`. -/
def Observers.is_empty {E : Type} (l : Observers E) : Bool := l.isEmpty

/-- Result of one pipeline dispatch: `Ok(())`, a propagated observer error, or
a Rust panic. -/
inductive DispatchOutcome (E : Type) where
  | ok : DispatchOutcome E
  | err : E → DispatchOutcome E
  | panicked : DispatchOutcome E
  deriving DecidableEq, Repr

/-- The mode gate of `Observers::observe_iter`, i.e. the `match l.1` in
observers/mod.rs lines 177-182.  Returns `some true` when the observer is to
be called, `some false` when it is skipped, and `none` when the Rust guard
`iter % i == 0` divides by zero (i.e. `Every(0)`), which panics in Rust. -/
def modeGate (m : ObserverMode) (iter : Nat) (best : Bool) : Option Bool :=
  match m with
  | .Always => some true
  | .Every i => if i = 0 then none else some (iter % i == 0)
  | .NewBest => some best
  | .Never => some false

/-- `Observers::observe_iter`: walks the registered observers in insertion
order, calls each one whose mode gate fires, and stops at the first error
(the `?` operator) or panic.  Returns the outcome together with the list of
positions (0-based, in insertion order) of the observers that were actually
called. -/
def observeIterAux {E : Type} : Observers E → ObsSt → DispatchOutcome E × List Nat
  | [], _ => (.ok, [])
  | (o, m) :: rest, s =>
    match modeGate m s.iter s.is_best with
    | none => (.panicked, [])
    | some false =>
      let r := observeIterAux rest s
      (r.1, r.2.map (· + 1))
    | some true =>
      match o.on_iter s with
      | .error e => (.err e, [0])
      | .ok _ =>
        let r := observeIterAux rest s
        (r.1, 0 :: r.2.map (· + 1))

/-- `Observers::observe_init`: calls `observe_init` of every registered
observer unconditionally, in insertion order, stopping at the first error.
Returns the outcome and the positions of the observers that were called. -/
def observeInitAux {E : Type} : Observers E → String → DispatchOutcome E × List Nat
  | [], _ => (.ok, [])
  | (o, _) :: rest, name =>
    match o.on_init name with
    | .error e => (.err e, [0])
    | .ok _ =>
      let r := observeInitAux rest name
      (r.1, 0 :: r.2.map (· + 1))

/-- A mode is valid when it is not `Every(0)` (the spec's data model requires
the `Every` parameter to be a positive integer). -/
def validMode : ObserverMode → Bool
  | .Every n => decide (0 < n)
  | _ => true

/-- Modelled from the spec: the dispatch algorithm of spec section 4.2.  An
observer fires exactly when its mode says so: `Never` never, `Always` always,
`Every(N)` exactly when `iter mod N == 0`, `NewBest` exactly when
`state.is_best()`. -/
def fires (m : ObserverMode) (s : ObsSt) : Bool :=
  match m with
  | .Never => false
  | .Always => true
  | .Every n => s.iter % n == 0
  | .NewBest => s.is_best

/-- Modelled from the spec: dispatch in insertion order, call each observer
whose mode fires, propagate the first error immediately (no further observers
in the same dispatch). -/
def dispatchSpec {E : Type} : Observers E → ObsSt → DispatchOutcome E × List Nat
  | [], _ => (.ok, [])
  | (o, m) :: rest, s =>
    if fires m s then
      match o.on_iter s with
      | .error e => (.err e, [0])
      | .ok _ =>
        let r := dispatchSpec rest s
        (r.1, 0 :: r.2.map (· + 1))
    else
      let r := dispatchSpec rest s
      (r.1, r.2.map (· + 1))

/-- Number of dispatches among `states` in which the observer at position `j`
was called. -/
def callCount {E : Type} (obs : Observers E) (states : List ObsSt) (j : Nat) : Nat :=
  (states.filter (fun s => decide (j ∈ (observeIterAux obs s).2))).length

/-- An observer whose callbacks always succeed. -/
def obsOk : ObsBehavior Unit :=
  { on_init := fun _ => .ok (), on_iter := fun _ => .ok () }

/-- An observer whose `observe_iter` fails exactly on iteration 7. -/
def obsErrAt7 : ObsBehavior Unit :=
  { on_init := fun _ => .ok ()
    on_iter := fun s => if s.iter = 7 then .error () else .ok () }

/-- The three-observer pipeline of scenario S6: all `Always`, the second one
failing on iteration 7. -/
def obsS6 : Observers Unit := [(obsOk, .Always), (obsErrAt7, .Always), (obsOk, .Always)]

/-- The states observed on iterations 0 through 7. -/
def statesS6 : List ObsSt := (List.range 8).map (fun k => { iter := k, is_best := false })

/-- An observer whose `observe_init` always fails. -/
def obsErrInit : ObsBehavior Unit :=
  { on_init := fun _ => .error (), on_iter := fun _ => .ok () }

/-! ## Simulated Annealing (src/argmin/src/solver/simulatedannealing/mod.rs) -/

/-- `std::u64::MAX`. -/
def U64MAX : Nat := 2 ^ 64 - 1

/-- `SATempFunc`: the temperature schedules. -/
inductive SATempFunc where
  | TemperatureFast : SATempFunc
  | Boltzmann : SATempFunc
  | Exponential : ℝ → SATempFunc

/-- The solver's RNG, modelled as a stream of uniform samples and a position;
`gen()` reads `seq idx` and advances `idx` by one. -/
structure Rng where
  seq : Nat → ℝ
  idx : Nat

/-- The `SimulatedAnnealing` struct, field for field. -/
structure SimulatedAnnealing where
  init_temp : ℝ
  temp_func : SATempFunc
  temp_iter : Nat
  stall_iter_accepted : Nat
  stall_iter_accepted_limit : Nat
  stall_iter_best : Nat
  stall_iter_best_limit : Nat
  reanneal_fixed : Nat
  reanneal_iter_fixed : Nat
  reanneal_accepted : Nat
  reanneal_iter_accepted : Nat
  reanneal_best : Nat
  reanneal_iter_best : Nat
  cur_temp : ℝ
  rng : Rng

/-- The error kinds surfaced by the constructor. -/
inductive ArgminError where
  | InvalidParameter : String → ArgminError
  deriving DecidableEq, Repr

/-- `SimulatedAnnealing::new(init_temp, rng)`. -/
noncomputable def SimulatedAnnealing.new (init_temp : ℝ) (rng : Rng) :
    Except ArgminError SimulatedAnnealing :=
  if init_temp ≤ 0 then
    .error (.InvalidParameter "Initial temperature must be > 0.")
  else
    .ok { init_temp := init_temp
          temp_func := .TemperatureFast
          temp_iter := 0
          stall_iter_accepted := 0
          stall_iter_accepted_limit := U64MAX
          stall_iter_best := 0
          stall_iter_best_limit := U64MAX
          reanneal_fixed := U64MAX
          reanneal_iter_fixed := 0
          reanneal_accepted := U64MAX
          reanneal_iter_accepted := 0
          reanneal_best := U64MAX
          reanneal_iter_best := 0
          cur_temp := init_temp
          rng := rng }

/-- Builder `temp_func(...)` (named `set_temp_func` here because the field of
the same name already exists). -/
def SimulatedAnnealing.set_temp_func (sa : SimulatedAnnealing) (f : SATempFunc) :
    SimulatedAnnealing :=
  { sa with temp_func := f }

/-- Builder `stall_accepted(iter)`. -/
def SimulatedAnnealing.stall_accepted_cfg (sa : SimulatedAnnealing) (iter : Nat) :
    SimulatedAnnealing :=
  { sa with stall_iter_accepted_limit := iter }

/-- Builder `stall_best(iter)`. -/
def SimulatedAnnealing.stall_best_cfg (sa : SimulatedAnnealing) (iter : Nat) :
    SimulatedAnnealing :=
  { sa with stall_iter_best_limit := iter }

/-- Builder `reannealing_fixed(iter)`. -/
def SimulatedAnnealing.reannealing_fixed (sa : SimulatedAnnealing) (iter : Nat) :
    SimulatedAnnealing :=
  { sa with reanneal_fixed := iter }

/-- Builder `reannealing_accepted(iter)`. -/
def SimulatedAnnealing.reannealing_accepted (sa : SimulatedAnnealing) (iter : Nat) :
    SimulatedAnnealing :=
  { sa with reanneal_accepted := iter }

/-- Builder `reannealing_best(iter)`. -/
def SimulatedAnnealing.reannealing_best (sa : SimulatedAnnealing) (iter : Nat) :
    SimulatedAnnealing :=
  { sa with reanneal_best := iter }

/-- The schedule formula of `update_temperature` at index `k` (the code always
calls it with `k = temp_iter + 1`; `F::from_u64` is the cast `Nat → ℝ`, and
`f64::powf` on a positive base is `Real.rpow`). -/
noncomputable def schedTemp (f : SATempFunc) (t0 : ℝ) (k : Nat) : ℝ :=
  match f with
  | .TemperatureFast => t0 / (k : ℝ)
  | .Boltzmann => t0 / Real.log (k : ℝ)
  | .Exponential x => t0 * Real.rpow x (k : ℝ)

/-- `update_temperature` (mod.rs lines 232-242). -/
noncomputable def update_temperature (sa : SimulatedAnnealing) : SimulatedAnnealing :=
  { sa with cur_temp := schedTemp sa.temp_func sa.init_temp (sa.temp_iter + 1) }

/-- `reanneal` (mod.rs lines 245-259): computes the `(r_fixed, r_accepted,
r_best)` triple and, if any component is true, resets the reanneal counters,
the current temperature and `temp_iter`. -/
def reanneal (sa : SimulatedAnnealing) : SimulatedAnnealing × (Bool × Bool × Bool) :=
  let out : Bool × Bool × Bool :=
    (decide (sa.reanneal_iter_fixed ≥ sa.reanneal_fixed),
     decide (sa.reanneal_iter_accepted ≥ sa.reanneal_accepted),
     decide (sa.reanneal_iter_best ≥ sa.reanneal_best))
  if out.1 || out.2.1 || out.2.2 then
    ({ sa with reanneal_iter_fixed := 0
               reanneal_iter_accepted := 0
               reanneal_iter_best := 0
               cur_temp := sa.init_temp
               temp_iter := 0 }, out)
  else (sa, out)

/-- `update_stall_and_reanneal_iter` (mod.rs lines 262-287). -/
def update_stall_and_reanneal_iter (sa : SimulatedAnnealing)
    (accepted new_best : Bool) : SimulatedAnnealing :=
  { sa with
    stall_iter_accepted := if accepted then 0 else sa.stall_iter_accepted + 1
    reanneal_iter_accepted := if accepted then 0 else sa.reanneal_iter_accepted + 1
    stall_iter_best := if new_best then 0 else sa.stall_iter_best + 1
    reanneal_iter_best := if new_best then 0 else sa.reanneal_iter_best + 1 }

/-- The `Problem` wrapper surface used by the SA solver: the user cost and
anneal operations plus the named evaluation counters. -/
structure SAProblem (P E : Type) where
  cost_fn : P → Except E ℝ
  anneal_fn : P → ℝ → Except E P
  cost_count : Nat
  anneal_count : Nat

/-- `Problem::cost`: increments `cost_count` (even on error) and calls the
user cost function. -/
def SAProblem.cost {P E : Type} (prob : SAProblem P E) (p : P) :
    SAProblem P E × Except E ℝ :=
  ({ prob with cost_count := prob.cost_count + 1 }, prob.cost_fn p)

/-- `Problem::anneal`: increments `anneal_count` (even on error) and calls the
user anneal function. -/
def SAProblem.anneal {P E : Type} (prob : SAProblem P E) (p : P) (extent : ℝ) :
    SAProblem P E × Except E P :=
  ({ prob with anneal_count := prob.anneal_count + 1 }, prob.anneal_fn p extent)

/-- The part of `IterState` consumed by the SA solver: the takeable parameter
vector, the current cost and the best cost. -/
structure IterState (P : Type) where
  param : Option P
  cost : ℝ
  best_cost : ℝ

/-- `IterState::take_param`. -/
def IterState.take_param {P : Type} (st : IterState P) : Option P × IterState P :=
  (st.param, { st with param := none })

/-- The `param(p)` builder method of `IterState`. -/
def IterState.setParam {P : Type} (st : IterState P) (p : P) : IterState P :=
  { st with param := some p }

/-- The `cost(c)` builder method of `IterState`. -/
def IterState.setCost {P : Type} (st : IterState P) (c : ℝ) : IterState P :=
  { st with cost := c }

/-- The KV record emitted by `next_iter`, one field per `make_kv!` entry. -/
structure SAKV where
  t : ℝ
  new_be : Bool
  acc : Bool
  st_i_be : Nat
  st_i_ac : Nat
  ra_i_fi : Nat
  ra_i_be : Nat
  ra_i_ac : Nat
  ra_fi : Bool
  ra_be : Bool
  ra_ac : Bool

/-- Failure of a solver call: a Rust panic (`unwrap` of a missing parameter)
or a propagated user error. -/
inductive SAErr (E : Type) where
  | panicked : SAErr E
  | user : E → SAErr E

/-- `TerminationReason` (the variants used by the SA solver). -/
inductive TerminationReason where
  | AcceptedStallIterExceeded : TerminationReason
  | BestStallIterExceeded : TerminationReason
  | NotTerminated : TerminationReason
  deriving DecidableEq, Repr

/-- The acceptance test of `next_iter` (mod.rs lines 349-352): accept when
`new_cost < prev_cost` or when the Metropolis probability
`1 / (1 + exp((new_cost - prev_cost) / T))` exceeds the drawn sample `u`. -/
noncomputable def acceptDecision (new_cost prev_cost T u : ℝ) : Bool :=
  decide (new_cost < prev_cost ∨ 1 / (1 + Real.exp ((new_cost - prev_cost) / T)) > u)

/-- The new-best test of `next_iter` (mod.rs line 354). -/
noncomputable def newBestDecision (new_cost best_cost : ℝ) : Bool :=
  decide (new_cost < best_cost)

/-- `SimulatedAnnealing::next_iter` (mod.rs lines 318-388), with the solver,
problem and state threaded explicitly.  The order of operations follows the
source exactly: take the parameter (panicking when absent), anneal, evaluate
the cost, draw one RNG sample, run the acceptance test, update the stall and
reanneal counters, evaluate the reanneal triggers, increment `temp_iter` and
`reanneal_iter_fixed`, recompute the temperature, and return the new state
together with the KV record. -/
noncomputable def next_iter {P E : Type} (sa : SimulatedAnnealing)
    (problem : SAProblem P E) (state : IterState P) :
    Except (SAErr E) (SimulatedAnnealing × SAProblem P E × IterState P × SAKV) :=
  match state.take_param with
  | (none, _) => .error .panicked
  | (some prev_param, state1) =>
    let prev_cost := state1.cost
    match problem.anneal prev_param sa.cur_temp with
    | (_, .error e) => .error (.user e)
    | (problem1, .ok new_param) =>
      match problem1.cost new_param with
      | (_, .error e) => .error (.user e)
      | (problem2, .ok new_cost) =>
        let probSample := sa.rng.seq sa.rng.idx
        let sa0 := { sa with rng := { seq := sa.rng.seq, idx := sa.rng.idx + 1 } }
        let accepted : Bool := acceptDecision new_cost prev_cost sa.cur_temp probSample
        let new_best_found : Bool := newBestDecision new_cost state1.best_cost
        let sa1 := update_stall_and_reanneal_iter sa0 accepted new_best_found
        let rq := reanneal sa1
        let sa3 := { rq.1 with temp_iter := rq.1.temp_iter + 1
                               reanneal_iter_fixed := rq.1.reanneal_iter_fixed + 1 }
        let sa4 := update_temperature sa3
        .ok (sa4, problem2,
          (if accepted then (state1.setParam new_param).setCost new_cost
           else (state1.setParam prev_param).setCost prev_cost),
          { t := sa4.cur_temp
            new_be := new_best_found
            acc := accepted
            st_i_be := sa4.stall_iter_best
            st_i_ac := sa4.stall_iter_accepted
            ra_i_fi := sa4.reanneal_iter_fixed
            ra_i_be := sa4.reanneal_iter_best
            ra_i_ac := sa4.reanneal_iter_accepted
            ra_fi := rq.2.1
            ra_be := rq.2.2.2
            ra_ac := rq.2.2.1 })

/-- `SimulatedAnnealing::terminate` (mod.rs lines 390-398). -/
def terminate (sa : SimulatedAnnealing) : TerminationReason :=
  if sa.stall_iter_accepted > sa.stall_iter_accepted_limit then
    .AcceptedStallIterExceeded
  else if sa.stall_iter_best > sa.stall_iter_best_limit then
    .BestStallIterExceeded
  else
    .NotTerminated

/-- Run `next_iter` `n` times, collecting the emitted KV records in call
order. -/
noncomputable def runTrace {P E : Type} (sa : SimulatedAnnealing)
    (problem : SAProblem P E) (state : IterState P) :
    Nat → Except (SAErr E) (SimulatedAnnealing × SAProblem P E × IterState P × List SAKV)
  | 0 => .ok (sa, problem, state, [])
  | n + 1 =>
    match next_iter sa problem state with
    | .error e => .error e
    | .ok (sa1, problem1, state1, kv) =>
      match runTrace sa1 problem1 state1 n with
      | .error e => .error e
      | .ok (sa2, problem2, state2, kvs) => .ok (sa2, problem2, state2, kv :: kvs)

/-- Extract the solver value from a `runTrace` result. -/
def saAfter {P E : Type} :
    Except (SAErr E) (SimulatedAnnealing × SAProblem P E × IterState P × List SAKV) →
      Option SimulatedAnnealing
  | .ok (sa, _, _, _) => some sa
  | .error _ => none

/-- Extract the KV records from a `runTrace` result. -/
def kvsAfter {P E : Type} :
    Except (SAErr E) (SimulatedAnnealing × SAProblem P E × IterState P × List SAKV) →
      Option (List SAKV)
  | .ok (_, _, _, kvs) => some kvs
  | .error _ => none

/-- Final `cur_temp` of a `runTrace` result. -/
noncomputable def finalTemp {P E : Type}
    (r : Except (SAErr E) (SimulatedAnnealing × SAProblem P E × IterState P × List SAKV)) :
    Option ℝ :=
  (saAfter r).map SimulatedAnnealing.cur_temp

/-- Extract the solver value from a single `next_iter` result. -/
def saAfter1 {P E : Type} :
    Except (SAErr E) (SimulatedAnnealing × SAProblem P E × IterState P × SAKV) →
      Option SimulatedAnnealing
  | .ok (sa, _, _, _) => some sa
  | .error _ => none

/-- Extract the KV record from a single `next_iter` result. -/
def kvAfter1 {P E : Type} :
    Except (SAErr E) (SimulatedAnnealing × SAProblem P E × IterState P × SAKV) →
      Option SAKV
  | .ok (_, _, _, kv) => some kv
  | .error _ => none

/-! ### Concrete fixtures used by the scenario claims -/

/-- A concrete problem whose cost is constantly 0 and whose anneal move
returns the parameter unchanged, with counter values `c` and `a`.  With it,
`new_cost = prev_cost`, so the acceptance probability is exactly 1/2 and a
sample `u ≥ 1/2` rejects every candidate. -/
def probC (c a : Nat) : SAProblem Unit Unit :=
  { cost_fn := fun _ => .ok 0
    anneal_fn := fun p _ => .ok p
    cost_count := c
    anneal_count := a }

/-- A concrete state: parameter present, current and best cost 0. -/
def stC : IterState Unit := { param := some (), cost := 0, best_cost := 0 }

/-- A deterministic RNG whose samples are all 0.999, positioned at `j`. -/
noncomputable def rngC (j : Nat) : Rng := { seq := fun _ => 999 / 1000, idx := j }

/-- Concrete solver family: `TemperatureFast` schedule, `init_temp = 10`,
limits and triggers as given, and every counter at `j` — the solver state
reached after `j` rejecting, non-reannealing iterations. -/
noncomputable def saC (lacc lbest rfix racc rbest j : Nat) : SimulatedAnnealing :=
  { init_temp := 10
    temp_func := .TemperatureFast
    temp_iter := j
    stall_iter_accepted := j
    stall_iter_accepted_limit := lacc
    stall_iter_best := j
    stall_iter_best_limit := lbest
    reanneal_fixed := rfix
    reanneal_iter_fixed := j
    reanneal_accepted := racc
    reanneal_iter_accepted := j
    reanneal_best := rbest
    reanneal_iter_best := j
    cur_temp := schedTemp .TemperatureFast 10 (j + 1)
    rng := rngC j }

/-- The KV record emitted by a rejecting, non-reannealing call of the
constant-cost fixture entered with all counters at `j`. -/
noncomputable def kvC (j : Nat) : SAKV :=
  { t := schedTemp .TemperatureFast 10 (j + 2)
    new_be := false
    acc := false
    st_i_be := j + 1
    st_i_ac := j + 1
    ra_i_fi := j + 1
    ra_i_be := j + 1
    ra_i_ac := j + 1
    ra_fi := false
    ra_be := false
    ra_ac := false }

/-- The solver of scenario S2 under the `Exponential(0.5)` schedule after `j`
rejecting iterations: `init_temp = 10`, everything else at the construction
defaults (`saE 0` is the freshly configured solver with `cur_temp = 10`). -/
noncomputable def saE (j : Nat) : SimulatedAnnealing :=
  { init_temp := 10
    temp_func := .Exponential (1 / 2)
    temp_iter := j
    stall_iter_accepted := j
    stall_iter_accepted_limit := U64MAX
    stall_iter_best := j
    stall_iter_best_limit := U64MAX
    reanneal_fixed := U64MAX
    reanneal_iter_fixed := j
    reanneal_accepted := U64MAX
    reanneal_iter_accepted := j
    reanneal_best := U64MAX
    reanneal_iter_best := j
    cur_temp := if j = 0 then 10 else schedTemp (.Exponential (1 / 2)) 10 (j + 1)
    rng := rngC j }

/-- The KV record emitted by a rejecting call of the constant-cost fixture
under the `Exponential(0.5)` schedule, entered with all counters at `j`. -/
noncomputable def kvE (j : Nat) : SAKV :=
  { t := schedTemp (.Exponential (1 / 2)) 10 (j + 2)
    new_be := false
    acc := false
    st_i_be := j + 1
    st_i_ac := j + 1
    ra_i_fi := j + 1
    ra_i_be := j + 1
    ra_i_ac := j + 1
    ra_fi := false
    ra_be := false
    ra_ac := false }

/-- The solver state after the sixth call of the `reannealing_fixed(5)`
fixture: the reanneal reset `temp_iter` to 0 and `cur_temp` to `init_temp`,
then the increment moved `temp_iter` to 1 and the schedule recomputed
`cur_temp` at `k = 2`. -/
noncomputable def sa6 : SimulatedAnnealing :=
  { init_temp := 10
    temp_func := .TemperatureFast
    temp_iter := 1
    stall_iter_accepted := 6
    stall_iter_accepted_limit := U64MAX
    stall_iter_best := 6
    stall_iter_best_limit := U64MAX
    reanneal_fixed := 5
    reanneal_iter_fixed := 1
    reanneal_accepted := U64MAX
    reanneal_iter_accepted := 0
    reanneal_best := U64MAX
    reanneal_iter_best := 0
    cur_temp := schedTemp .TemperatureFast 10 2
    rng := rngC 6 }

/-- The KV record emitted by the sixth call of the `reannealing_fixed(5)`
fixture: `ra_fi` is true and the post-reset counters are reported. -/
noncomputable def kv6 : SAKV :=
  { t := schedTemp .TemperatureFast 10 2
    new_be := false
    acc := false
    st_i_be := 6
    st_i_ac := 6
    ra_i_fi := 1
    ra_i_be := 0
    ra_i_ac := 0
    ra_fi := true
    ra_be := false
    ra_ac := false }

/-! ## Theorems -/

/-- The positions of the observers called by one `observe_iter` dispatch are
strictly increasing, i.e. observers are visited in insertion order. -/
theorem observeIterAux_pairwise {E : Type} (obs : Observers E) (s : ObsSt) :
    List.Pairwise (· < ·) (observeIterAux obs s).2 := by
  induction obs with
  | nil => simp [observeIterAux]
  | cons p rest ih =>
    obtain ⟨o, m⟩ := p
    simp only [observeIterAux]
    cases hg : modeGate m s.iter s.is_best with
    | none => simp
    | some b =>
      cases b with
      | false =>
        simpa using (List.pairwise_map.mpr
          (ih.imp (fun hab => Nat.add_lt_add_right hab 1)))
      | true =>
        cases ho : o.on_iter s with
        | error e => simp
        | ok u =>
          simp only []
          refine List.Pairwise.cons ?_
            (List.pairwise_map.mpr (ih.imp (fun hab => Nat.add_lt_add_right hab 1)))
          intro a ha
          rcases List.mem_map.mp ha with ⟨x, _, rfl⟩
          omega

/-- When no registered mode is `Every(0)`, the code's dispatch coincides with
the dispatch algorithm written in the spec's words. -/
theorem observeIterAux_eq_dispatchSpec {E : Type} (obs : Observers E) (s : ObsSt)
    (h : ∀ p ∈ obs, validMode p.2 = true) :
    observeIterAux obs s = dispatchSpec obs s := by
  induction obs with
  | nil => rfl
  | cons p rest ih =>
    obtain ⟨o, m⟩ := p
    have hrest : ∀ q ∈ rest, validMode q.2 = true :=
      fun q hq => h q (List.mem_cons_of_mem _ hq)
    have hm : validMode (o, m).2 = true := h (o, m) (List.mem_cons_self _ _)
    cases m with
    | Never => simp [observeIterAux, dispatchSpec, modeGate, fires, ih hrest]
    | Always =>
      cases ho : o.on_iter s <;>
        simp [observeIterAux, dispatchSpec, modeGate, fires, ho, ih hrest]
    | NewBest =>
      cases hb : s.is_best <;> cases ho : o.on_iter s <;>
        simp [observeIterAux, dispatchSpec, modeGate, fires, hb, ho, ih hrest]
    | Every n =>
      have hn : n ≠ 0 := by
        have h0 : 0 < n := by simpa [validMode] using hm
        omega
      cases he : (s.iter % n == 0) <;> cases ho : o.on_iter s <;>
        simp [observeIterAux, dispatchSpec, modeGate, fires, hn, he, ho, ih hrest]

/-- C2: for every pipeline and state (with the `Every` parameters positive, as
the spec's data model requires), `observe_iter` visits the registered
`(observer, mode)` pairs in insertion order and equals the spec's dispatch
algorithm: `Never` is never called, `Always` always, `Every(N)` exactly when
`iter mod N == 0`, `NewBest` exactly when `is_best()`, and an observer error
is propagated immediately, skipping all later observers of that dispatch.
Consequently in scenario S6 (three `Always` observers, the second failing on
iteration 7, dispatched on iterations 0..7) observer 1 is called 8 times,
observer 3 only 7 times, and the iteration-7 dispatch returns the error. -/
theorem C2_observe_iter_dispatch {E : Type} (obs : Observers E) (s : ObsSt)
    (h : ∀ p ∈ obs, validMode p.2 = true) :
    (observeIterAux obs s = dispatchSpec obs s
      ∧ List.Pairwise (· < ·) (observeIterAux obs s).2)
    ∧ (callCount obsS6 statesS6 0 = 8 ∧ callCount obsS6 statesS6 1 = 8
      ∧ callCount obsS6 statesS6 2 = 7
      ∧ (observeIterAux obsS6 { iter := 7, is_best := false }).1 = .err ()) := by
  refine ⟨⟨observeIterAux_eq_dispatchSpec obs s h, observeIterAux_pairwise obs s⟩,
    ?_, ?_, ?_, ?_⟩ <;> decide

/-- Witness for C2 at the concrete S6 pipeline and the state of iteration 3. -/
theorem C2_observe_iter_dispatch_witness :
    (observeIterAux obsS6 { iter := 3, is_best := true }
        = dispatchSpec obsS6 { iter := 3, is_best := true }
      ∧ List.Pairwise (· < ·) (observeIterAux obsS6 { iter := 3, is_best := true }).2)
    ∧ (callCount obsS6 statesS6 0 = 8 ∧ callCount obsS6 statesS6 1 = 8
      ∧ callCount obsS6 statesS6 2 = 7
      ∧ (observeIterAux obsS6 { iter := 7, is_best := false }).1 = .err ()) :=
  C2_observe_iter_dispatch obsS6 { iter := 3, is_best := true } (by decide)

/-- C7 counterexample: the claim says `Every(0)` is rejected when pushed or
fails fast on first dispatch rather than ever performing the modulo by zero
inside `observe_iter`.  In fact `push` registers `Every(0)` without any
validation, and the very first dispatch evaluates the Rust guard `iter % 0`
(`modeGate` returns `none`), i.e. the division by zero is performed and the
process panics there. -/
theorem C7_counterexample :
    Observers.push (Observers.new Unit) obsOk (.Every 0) = [(obsOk, .Every 0)]
    ∧ modeGate (.Every 0) 0 false = none
    ∧ observeIterAux [(obsOk, ObserverMode.Every 0)] { iter := 0, is_best := false }
      = (.panicked, []) :=
  ⟨rfl, rfl, rfl⟩

/-- C7 amended: `push` never validates the mode (it appends the pair
unchanged for every mode, including `Every(0)`), and whenever dispatch
reaches an observer registered with `Every(0)`, `observe_iter` evaluates
`iter % 0` and panics with a division by zero at that point (no observer of
the dispatch is called). -/
theorem C7_every_zero_panics {E : Type} (l : Observers E) (o : ObsBehavior E)
    (m : ObserverMode) (f : ObsBehavior E) (rest : Observers E) (s : ObsSt) :
    Observers.push l o m = l ++ [(o, m)]
    ∧ observeIterAux ((f, ObserverMode.Every 0) :: rest) s = (.panicked, []) :=
  ⟨rfl, rfl⟩

/-- C10: if an observer's `observe_init` fails, `Observers::observe_init`
propagates that error immediately: exactly the observers registered before it
(in insertion order) plus the failing one have been called, and no observer
registered after it is invoked, regardless of the later observers' modes. -/
theorem C10_observe_init_error_propagation {E : Type} (pre post : Observers E)
    (o : ObsBehavior E) (m : ObserverMode) (name : String) (e : E)
    (hpre : ∀ p ∈ pre, p.1.on_init name = .ok ())
    (he : o.on_init name = .error e) :
    observeInitAux (pre ++ (o, m) :: post) name = (.err e, List.range (pre.length + 1)) := by
  induction pre with
  | nil => simp [observeInitAux, he, List.range_succ_eq_map]
  | cons p rest ih =>
    have hrest : ∀ q ∈ rest, q.1.on_init name = .ok () :=
      fun q hq => hpre q (List.mem_cons_of_mem _ hq)
    obtain ⟨op, mp⟩ := p
    have hp : op.on_init name = .ok () := hpre (op, mp) (List.mem_cons_self _ _)
    simp only [List.cons_append, observeInitAux, hp, List.length_cons]
    rw [List.range_succ_eq_map]
    simp [ih hrest, Nat.succ_eq_add_one]

/-- Witness for C10: a three-observer pipeline whose second observer fails at
`observe_init`; the call errors and only observers 1 and 2 were invoked. -/
theorem C10_observe_init_error_propagation_witness :
    observeInitAux [(obsOk, .Always), (obsErrInit, .Never), (obsOk, .NewBest)] "test_solver"
      = (.err (), [0, 1]) := by
  have h := C10_observe_init_error_propagation [(obsOk, ObserverMode.Always)]
    [(obsOk, ObserverMode.NewBest)] obsErrInit ObserverMode.Never "test_solver" ()
    (by intro p hp; rw [List.mem_singleton] at hp; subst hp; rfl) rfl
  simpa using h

/-- `reanneal` never touches the RNG. -/
theorem reanneal_rng (sa : SimulatedAnnealing) : (reanneal sa).1.rng = sa.rng := by
  simp only [reanneal]
  split <;> rfl

/-- When no trigger condition holds, `reanneal` leaves the solver unchanged
and reports `(false, false, false)`. -/
theorem reanneal_not_fired (sa : SimulatedAnnealing)
    (h1 : sa.reanneal_iter_fixed < sa.reanneal_fixed)
    (h2 : sa.reanneal_iter_accepted < sa.reanneal_accepted)
    (h3 : sa.reanneal_iter_best < sa.reanneal_best) :
    reanneal sa = (sa, (false, false, false)) := by
  simp only [reanneal, decide_eq_false (not_le.mpr h1), decide_eq_false (not_le.mpr h2),
    decide_eq_false (not_le.mpr h3)]
  simp

/-- When the fixed trigger condition holds, `reanneal` reports
`r_fixed = true` and, at that instant, resets the three reanneal counters to
zero, `cur_temp` to `init_temp` and `temp_iter` to zero. -/
theorem reanneal_fired_fixed (sa : SimulatedAnnealing)
    (h : sa.reanneal_iter_fixed ≥ sa.reanneal_fixed) :
    reanneal sa
      = ({ sa with
            reanneal_iter_fixed := 0
            reanneal_iter_accepted := 0
            reanneal_iter_best := 0
            cur_temp := sa.init_temp
            temp_iter := 0 },
         (true, decide (sa.reanneal_iter_accepted ≥ sa.reanneal_accepted),
          decide (sa.reanneal_iter_best ≥ sa.reanneal_best))) := by
  simp only [reanneal, decide_eq_true h]
  simp

/-- A candidate with `new_cost = prev_cost` is rejected whenever the drawn
sample is at least 1/2: the Metropolis probability is then exactly 1/2. -/
theorem acceptDecision_self (x T u : ℝ) (hu : 1 / 2 ≤ u) :
    acceptDecision x x T u = false := by
  apply decide_eq_false
  push_neg
  refine ⟨le_refl x, ?_⟩
  have h : (1 : ℝ) / (1 + Real.exp ((x - x) / T)) = 1 / 2 := by
    rw [sub_self, zero_div, Real.exp_zero]
    norm_num
  rw [h]
  exact hu

/-- A candidate with `new_cost = best_cost` is not a new best. -/
theorem newBestDecision_self (x : ℝ) : newBestDecision x x = false := by
  apply decide_eq_false
  exact lt_irrefl x

/-- One `next_iter` call of the constant-cost fixture: for any solver state
whose triggers do not fire at this call and whose next RNG sample is at least
1/2, the candidate is rejected, no new best is found, every counter advances
by one, the RNG advances by one, and the temperature becomes the schedule
value at `temp_iter + 2`. -/
theorem constStep (sa : SimulatedAnnealing) (c a : Nat)
    (hu : 1 / 2 ≤ sa.rng.seq sa.rng.idx)
    (hfix : sa.reanneal_iter_fixed < sa.reanneal_fixed)
    (hacc : sa.reanneal_iter_accepted + 1 < sa.reanneal_accepted)
    (hbest : sa.reanneal_iter_best + 1 < sa.reanneal_best) :
    next_iter sa (probC c a) stC
      = .ok ({ sa with
          rng := { seq := sa.rng.seq, idx := sa.rng.idx + 1 }
          stall_iter_accepted := sa.stall_iter_accepted + 1
          stall_iter_best := sa.stall_iter_best + 1
          reanneal_iter_fixed := sa.reanneal_iter_fixed + 1
          reanneal_iter_accepted := sa.reanneal_iter_accepted + 1
          reanneal_iter_best := sa.reanneal_iter_best + 1
          temp_iter := sa.temp_iter + 1
          cur_temp := schedTemp sa.temp_func sa.init_temp (sa.temp_iter + 2) },
        probC (c + 1) (a + 1), stC,
        { t := schedTemp sa.temp_func sa.init_temp (sa.temp_iter + 2)
          new_be := false
          acc := false
          st_i_be := sa.stall_iter_best + 1
          st_i_ac := sa.stall_iter_accepted + 1
          ra_i_fi := sa.reanneal_iter_fixed + 1
          ra_i_be := sa.reanneal_iter_best + 1
          ra_i_ac := sa.reanneal_iter_accepted + 1
          ra_fi := false
          ra_be := false
          ra_ac := false }) := by
  simp only [next_iter, IterState.take_param, SAProblem.anneal, SAProblem.cost, probC, stC,
    acceptDecision_self _ _ _ hu, newBestDecision_self, update_stall_and_reanneal_iter]
  rw [reanneal_not_fired]
  · simp [update_temperature, IterState.setParam, IterState.setCost]
  · exact hfix
  · exact hacc
  · exact hbest

/-- `constStep` specialised to the `saC` family: one rejecting call moves
`saC _ _ _ _ _ j` to `saC _ _ _ _ _ (j + 1)`. -/
theorem constStepC (lacc lbest rfix racc rbest j c a : Nat)
    (h1 : j < rfix) (h2 : j + 1 < racc) (h3 : j + 1 < rbest) :
    next_iter (saC lacc lbest rfix racc rbest j) (probC c a) stC
      = .ok (saC lacc lbest rfix racc rbest (j + 1), probC (c + 1) (a + 1), stC, kvC j) := by
  rw [constStep (saC lacc lbest rfix racc rbest j) c a
    (by norm_num [saC, rngC])
    (by simp only [saC]; exact h1)
    (by simp only [saC]; exact h2)
    (by simp only [saC]; exact h3)]
  simp [saC, rngC, kvC]

/-- Running the constant-cost fixture for `n` calls from counter value `j`:
as long as no reanneal trigger can fire, every call rejects, every counter
ends at `j + n`, and the emitted KV records are `kvC j, …, kvC (j + n - 1)`. -/
theorem constRun (lacc lbest rfix racc rbest : Nat) :
    ∀ (n j : Nat), j + n ≤ rfix → j + n < racc → j + n < rbest →
      runTrace (saC lacc lbest rfix racc rbest j) (probC j j) stC n
        = .ok (saC lacc lbest rfix racc rbest (j + n), probC (j + n) (j + n), stC,
            (List.range n).map (fun k => kvC (j + k))) := by
  intro n
  induction n with
  | zero =>
    intro j h1 h2 h3
    simp [runTrace]
  | succ m ih =>
    intro j h1 h2 h3
    have hstep := constStepC lacc lbest rfix racc rbest j j j
      (by omega) (by omega) (by omega)
    have hrest := ih (j + 1) (by omega) (by omega) (by omega)
    simp only [runTrace, hstep, hrest]
    have hj : j + 1 + m = j + (m + 1) := by omega
    rw [hj, List.range_succ_eq_map]
    simp [List.map_map, Function.comp, Nat.add_comm, Nat.add_left_comm, Nat.add_assoc]

/-- `runTrace` decomposes: an `m + n`-call run is the `m`-call run followed by
an `n`-call run from where it left off, with the KV lists concatenated. -/
theorem runTrace_append {P E : Type} :
    ∀ (m n : Nat) (sa : SimulatedAnnealing) (prob : SAProblem P E) (st : IterState P)
      (sa1 : SimulatedAnnealing) (p1 : SAProblem P E) (st1 : IterState P) (kvs1 : List SAKV),
      runTrace sa prob st m = .ok (sa1, p1, st1, kvs1) →
      runTrace sa prob st (m + n)
        = match runTrace sa1 p1 st1 n with
          | .error e => .error e
          | .ok (sa2, p2, st2, kvs2) => .ok (sa2, p2, st2, kvs1 ++ kvs2) := by
  intro m
  induction m with
  | zero =>
    intro n sa prob st sa1 p1 st1 kvs1 h
    simp only [runTrace, Except.ok.injEq, Prod.mk.injEq] at h
    obtain ⟨h1, h2, h3, h4⟩ := h
    subst h1; subst h2; subst h3; subst h4
    simp only [Nat.zero_add]
    cases hr : runTrace sa prob st n with
    | error e => simp [hr]
    | ok q => obtain ⟨s2, q2, t2, k2⟩ := q; simp [hr]
  | succ m ih =>
    intro n sa prob st sa1 p1 st1 kvs1 h
    simp only [runTrace] at h
    cases hstep : next_iter sa prob st with
    | error e => rw [hstep] at h; simp at h
    | ok q =>
      obtain ⟨sb, pb, stb, kv⟩ := q
      rw [hstep] at h
      dsimp only at h
      cases hrest : runTrace sb pb stb m with
      | error e => rw [hrest] at h; simp at h
      | ok r =>
        obtain ⟨sc, pc, stc, kvs⟩ := r
        rw [hrest] at h
        simp only [Except.ok.injEq, Prod.mk.injEq] at h
        obtain ⟨h1, h2, h3, h4⟩ := h
        subst h1; subst h2; subst h3; subst h4
        have : m + 1 + n = (m + n) + 1 := by omega
        rw [this]
        simp only [runTrace, hstep]
        rw [ih n sb pb stb sc pc stc kvs hrest]
        cases hr : runTrace sc pc stc n with
        | error e => simp [hr]
        | ok q2 => obtain ⟨s2, q2b, t2, k2⟩ := q2; simp [hr]

/-- C8: `new(init_temp, rng)` fails with `InvalidParameter` exactly when
`init_temp ≤ 0`; for `init_temp > 0` it succeeds with `cur_temp = init_temp`,
the `TemperatureFast` schedule, both stall limits and all three reanneal
triggers equal to `u64::MAX`, and every stall/reanneal/temperature counter
zero. -/
theorem C8_new_construction (t : ℝ) (rng : Rng) :
    (t ≤ 0 → SimulatedAnnealing.new t rng
      = .error (.InvalidParameter "Initial temperature must be > 0."))
    ∧ (0 < t → SimulatedAnnealing.new t rng
      = .ok { init_temp := t, temp_func := .TemperatureFast, temp_iter := 0,
              stall_iter_accepted := 0, stall_iter_accepted_limit := U64MAX,
              stall_iter_best := 0, stall_iter_best_limit := U64MAX,
              reanneal_fixed := U64MAX, reanneal_iter_fixed := 0,
              reanneal_accepted := U64MAX, reanneal_iter_accepted := 0,
              reanneal_best := U64MAX, reanneal_iter_best := 0,
              cur_temp := t, rng := rng }) := by
  constructor
  · intro h
    simp [SimulatedAnnealing.new, h]
  · intro h
    simp [SimulatedAnnealing.new, not_le.mpr h]

/-- Witness for C8 at `init_temp = -1` (rejected) and `init_temp = 10`
(accepted, with all defaults as claimed). -/
theorem C8_new_construction_witness :
    ((-1 : ℝ) ≤ 0
      ∧ SimulatedAnnealing.new (-1) (rngC 0)
        = .error (.InvalidParameter "Initial temperature must be > 0."))
    ∧ ((0 : ℝ) < 10
      ∧ SimulatedAnnealing.new 10 (rngC 0)
        = .ok { init_temp := 10, temp_func := .TemperatureFast, temp_iter := 0,
                stall_iter_accepted := 0, stall_iter_accepted_limit := U64MAX,
                stall_iter_best := 0, stall_iter_best_limit := U64MAX,
                reanneal_fixed := U64MAX, reanneal_iter_fixed := 0,
                reanneal_accepted := U64MAX, reanneal_iter_accepted := 0,
                reanneal_best := U64MAX, reanneal_iter_best := 0,
                cur_temp := 10, rng := rngC 0 }) :=
  ⟨⟨by norm_num, (C8_new_construction (-1) (rngC 0)).1 (by norm_num)⟩,
   ⟨by norm_num, (C8_new_construction 10 (rngC 0)).2 (by norm_num)⟩⟩

/-- C1: every call to `next_iter` that reaches the acceptance test (parameter
present, anneal and cost both succeed) draws exactly one uniform sample `u`
from the solver's RNG unconditionally — the returned solver's RNG stream is
unchanged and its position has advanced by exactly one, whatever the
acceptance outcome — and the candidate is accepted if and only if
`new_cost < prev_cost` or `1/(1+exp((new_cost - prev_cost)/cur_temp)) > u`,
where `cur_temp` is the solver's temperature field entering the call (the
value set at the end of the previous iteration, `init_temp` on the first). -/
theorem C1_acceptance_and_rng {P E : Type} (sa : SimulatedAnnealing)
    (problem : SAProblem P E) (state : IterState P) (prev_param new_param : P)
    (new_cost : ℝ)
    (hparam : state.param = some prev_param)
    (hanneal : problem.anneal_fn prev_param sa.cur_temp = .ok new_param)
    (hcost : problem.cost_fn new_param = .ok new_cost) :
    ∃ sa1 problem1 state1 kv,
      next_iter sa problem state = .ok (sa1, problem1, state1, kv)
      ∧ sa1.rng.seq = sa.rng.seq
      ∧ sa1.rng.idx = sa.rng.idx + 1
      ∧ (kv.acc = true ↔ (new_cost < state.cost
          ∨ 1 / (1 + Real.exp ((new_cost - state.cost) / sa.cur_temp))
            > sa.rng.seq sa.rng.idx)) := by
  simp only [next_iter, IterState.take_param, SAProblem.anneal, SAProblem.cost, hparam,
    hanneal, hcost]
  refine ⟨_, _, _, _, rfl, ?_, ?_, ?_⟩
  · simp [update_temperature, update_stall_and_reanneal_iter, reanneal_rng]
  · simp [update_temperature, update_stall_and_reanneal_iter, reanneal_rng]
  · simp [acceptDecision, decide_eq_true_eq]

/-- Witness for C1: a concrete call on the constant-cost problem. -/
theorem C1_acceptance_and_rng_witness :
    ∃ sa1 problem1 state1 kv,
      next_iter (saC U64MAX U64MAX U64MAX U64MAX U64MAX 0) (probC 0 0) stC
        = .ok (sa1, problem1, state1, kv)
      ∧ sa1.rng.seq = (saC U64MAX U64MAX U64MAX U64MAX U64MAX 0).rng.seq
      ∧ sa1.rng.idx = (saC U64MAX U64MAX U64MAX U64MAX U64MAX 0).rng.idx + 1
      ∧ (kv.acc = true ↔ ((0 : ℝ) < stC.cost
          ∨ 1 / (1 + Real.exp (((0 : ℝ) - stC.cost)
              / (saC U64MAX U64MAX U64MAX U64MAX U64MAX 0).cur_temp))
            > (saC U64MAX U64MAX U64MAX U64MAX U64MAX 0).rng.seq
                (saC U64MAX U64MAX U64MAX U64MAX U64MAX 0).rng.idx)) :=
  C1_acceptance_and_rng (saC U64MAX U64MAX U64MAX U64MAX U64MAX 0) (probC 0 0) stC
    () () 0 rfl rfl rfl

/-- `reanneal` never touches the accepted-stall counter. -/
theorem reanneal_stall_acc (sa : SimulatedAnnealing) :
    (reanneal sa).1.stall_iter_accepted = sa.stall_iter_accepted := by
  simp only [reanneal]
  split <;> rfl

/-- `reanneal` never touches the best-stall counter. -/
theorem reanneal_stall_best (sa : SimulatedAnnealing) :
    (reanneal sa).1.stall_iter_best = sa.stall_iter_best := by
  simp only [reanneal]
  split <;> rfl

/-- `reanneal` never touches the accepted-stall limit. -/
theorem reanneal_lim_acc (sa : SimulatedAnnealing) :
    (reanneal sa).1.stall_iter_accepted_limit = sa.stall_iter_accepted_limit := by
  simp only [reanneal]
  split <;> rfl

/-- `reanneal` never touches the best-stall limit. -/
theorem reanneal_lim_best (sa : SimulatedAnnealing) :
    (reanneal sa).1.stall_iter_best_limit = sa.stall_iter_best_limit := by
  simp only [reanneal]
  split <;> rfl

/-- Stall-counter facts about one successful `next_iter` call: the two stall
limits are never modified, and each stall counter resets to zero when the KV
record reports acceptance / a new best and increments by one otherwise. -/
theorem next_iter_stall_facts {P E : Type} (sa : SimulatedAnnealing)
    (problem : SAProblem P E) (state : IterState P)
    (sa1 : SimulatedAnnealing) (p1 : SAProblem P E) (st1 : IterState P) (kv : SAKV)
    (h : next_iter sa problem state = .ok (sa1, p1, st1, kv)) :
    sa1.stall_iter_accepted_limit = sa.stall_iter_accepted_limit
    ∧ sa1.stall_iter_best_limit = sa.stall_iter_best_limit
    ∧ sa1.stall_iter_accepted = (if kv.acc then 0 else sa.stall_iter_accepted + 1)
    ∧ sa1.stall_iter_best = (if kv.new_be then 0 else sa.stall_iter_best + 1) := by
  simp only [next_iter, IterState.take_param] at h
  cases hp : state.param with
  | none => rw [hp] at h; simp at h
  | some prev_param =>
    rw [hp] at h
    dsimp only at h
    simp only [SAProblem.anneal] at h
    cases ha : problem.anneal_fn prev_param sa.cur_temp with
    | error e => rw [ha] at h; simp at h
    | ok new_param =>
      rw [ha] at h
      dsimp only at h
      simp only [SAProblem.cost] at h
      cases hc : problem.cost_fn new_param with
      | error e => rw [hc] at h; simp at h
      | ok new_cost =>
        rw [hc] at h
        dsimp only at h
        simp only [Except.ok.injEq, Prod.mk.injEq] at h
        obtain ⟨h1, h2, h3, h4⟩ := h
        subst h1
        subst h4
        simp [update_temperature, update_stall_and_reanneal_iter, reanneal_stall_acc,
          reanneal_stall_best, reanneal_lim_acc, reanneal_lim_best]

/-- Stall-counter facts along a successful run: limits are preserved, the
best-stall counter grows by at most the number of calls, and when every KV
record reports no acceptance (resp. no new best) the accepted-stall (resp.
best-stall) counter grows by exactly the number of calls. -/
theorem runTrace_stall_facts {P E : Type} :
    ∀ (N : Nat) (sa : SimulatedAnnealing) (prob : SAProblem P E) (st : IterState P)
      (sa1 : SimulatedAnnealing) (p1 : SAProblem P E) (st1 : IterState P) (kvs : List SAKV),
      runTrace sa prob st N = .ok (sa1, p1, st1, kvs) →
      sa1.stall_iter_accepted_limit = sa.stall_iter_accepted_limit
      ∧ sa1.stall_iter_best_limit = sa.stall_iter_best_limit
      ∧ sa1.stall_iter_best ≤ sa.stall_iter_best + N
      ∧ ((∀ kv ∈ kvs, kv.acc = false) →
          sa1.stall_iter_accepted = sa.stall_iter_accepted + N)
      ∧ ((∀ kv ∈ kvs, kv.new_be = false) →
          sa1.stall_iter_best = sa.stall_iter_best + N) := by
  intro N
  induction N with
  | zero =>
    intro sa prob st sa1 p1 st1 kvs h
    simp only [runTrace, Except.ok.injEq, Prod.mk.injEq] at h
    obtain ⟨h1, h2, h3, h4⟩ := h
    subst h1
    subst h4
    simp
  | succ m ih =>
    intro sa prob st sa1 p1 st1 kvs h
    simp only [runTrace] at h
    cases hstep : next_iter sa prob st with
    | error e => rw [hstep] at h; simp at h
    | ok q =>
      obtain ⟨sb, pb, stb, kv⟩ := q
      rw [hstep] at h
      dsimp only at h
      cases hrest : runTrace sb pb stb m with
      | error e => rw [hrest] at h; simp at h
      | ok r =>
        obtain ⟨sc, pc, stc, kvs2⟩ := r
        rw [hrest] at h
        simp only [Except.ok.injEq, Prod.mk.injEq] at h
        obtain ⟨h1, h2, h3, h4⟩ := h
        subst h1
        subst h4
        have hf := next_iter_stall_facts sa prob st sb pb stb kv hstep
        have hr := ih sb pb stb sc pc stc kvs2 hrest
        refine ⟨by omega, by omega, ?_, ?_, ?_⟩
        · have hb : sb.stall_iter_best ≤ sa.stall_iter_best + 1 := by
            rcases hf.2.2.2 with hb
            split at hb <;> omega
          omega
        · intro hflags
          have hkv : kv.acc = false := hflags kv (List.mem_cons_self _ _)
          have hsb : sb.stall_iter_accepted = sa.stall_iter_accepted + 1 := by
            rcases hf.2.2.1 with hb
            rw [hkv] at hb
            simpa using hb
          have := hr.2.2.2.1 (fun x hx => hflags x (List.mem_cons_of_mem _ hx))
          omega
        · intro hflags
          have hkv : kv.new_be = false := hflags kv (List.mem_cons_self _ _)
          have hsb : sb.stall_iter_best = sa.stall_iter_best + 1 := by
            rcases hf.2.2.2 with hb
            rw [hkv] at hb
            simpa using hb
          have := hr.2.2.2.2 (fun x hx => hflags x (List.mem_cons_of_mem _ hx))
          omega

/-- C9: starting from zeroed stall counters, after `N` consecutive successful
`next_iter` calls in which no candidate was accepted, no new best was found
and no reanneal trigger fired (as reported by each call's KV record), both
`stall_iter_accepted` and `stall_iter_best` equal `N`. -/
theorem C9_stall_counters {P E : Type} (N : Nat) (sa : SimulatedAnnealing)
    (prob : SAProblem P E) (st : IterState P) (sa1 : SimulatedAnnealing)
    (p1 : SAProblem P E) (st1 : IterState P) (kvs : List SAKV)
    (hacc0 : sa.stall_iter_accepted = 0) (hbest0 : sa.stall_iter_best = 0)
    (hrun : runTrace sa prob st N = .ok (sa1, p1, st1, kvs))
    (hflags : ∀ kv ∈ kvs, kv.acc = false ∧ kv.new_be = false
      ∧ kv.ra_fi = false ∧ kv.ra_ac = false ∧ kv.ra_be = false) :
    sa1.stall_iter_accepted = N ∧ sa1.stall_iter_best = N := by
  have hf := runTrace_stall_facts N sa prob st sa1 p1 st1 kvs hrun
  constructor
  · have := hf.2.2.2.1 (fun kv hkv => (hflags kv hkv).1)
    omega
  · have := hf.2.2.2.2 (fun kv hkv => (hflags kv hkv).2.1)
    omega

/-- Witness for C9: three rejecting calls of the constant-cost fixture leave
both stall counters at 3. -/
theorem C9_stall_counters_witness :
    (saC U64MAX U64MAX U64MAX U64MAX U64MAX (0 + 3)).stall_iter_accepted = 3
    ∧ (saC U64MAX U64MAX U64MAX U64MAX U64MAX (0 + 3)).stall_iter_best = 3 := by
  have hrun := constRun U64MAX U64MAX U64MAX U64MAX U64MAX 3 0
    (by norm_num [U64MAX]) (by norm_num [U64MAX]) (by norm_num [U64MAX])
  exact C9_stall_counters 3 _ _ _ _ _ _ _ (by simp [saC]) (by simp [saC]) hrun
    (by
      intro kv hkv
      simp only [List.mem_map] at hkv
      obtain ⟨x, _, rfl⟩ := hkv
      simp [kvC])

/-- C6: `terminate` returns `AcceptedStallIterExceeded` exactly when
`stall_iter_accepted > stall_iter_accepted_limit` (strictly), otherwise
`BestStallIterExceeded` exactly when `stall_iter_best > stall_iter_best_limit`,
otherwise `NotTerminated`, with the accepted-stall check taking precedence.
Consequently with `stall_accepted(10)` (best limit at the default `u64::MAX`)
and zeroed counters, a run in which no candidate is ever accepted yields
`NotTerminated` after 10 calls and `AcceptedStallIterExceeded` after 11. -/
theorem C6_terminate_stall {P E : Type} (sa : SimulatedAnnealing)
    (prob : SAProblem P E) (st : IterState P) :
    (terminate sa = .AcceptedStallIterExceeded
      ↔ sa.stall_iter_accepted > sa.stall_iter_accepted_limit)
    ∧ (terminate sa = .BestStallIterExceeded
      ↔ (¬ sa.stall_iter_accepted > sa.stall_iter_accepted_limit
          ∧ sa.stall_iter_best > sa.stall_iter_best_limit))
    ∧ (terminate sa = .NotTerminated
      ↔ (¬ sa.stall_iter_accepted > sa.stall_iter_accepted_limit
          ∧ ¬ sa.stall_iter_best > sa.stall_iter_best_limit))
    ∧ (∀ (N : Nat) (sa1 : SimulatedAnnealing) (p1 : SAProblem P E) (st1 : IterState P)
        (kvs : List SAKV),
        sa.stall_iter_accepted_limit = 10 → sa.stall_iter_best_limit = U64MAX →
        sa.stall_iter_accepted = 0 → sa.stall_iter_best = 0 →
        runTrace sa prob st N = .ok (sa1, p1, st1, kvs) →
        (∀ kv ∈ kvs, kv.acc = false) →
        ((N = 10 → terminate sa1 = .NotTerminated)
          ∧ (N = 11 → terminate sa1 = .AcceptedStallIterExceeded))) := by
  refine ⟨?_, ?_, ?_, ?_⟩
  · by_cases h1 : sa.stall_iter_accepted > sa.stall_iter_accepted_limit <;>
      by_cases h2 : sa.stall_iter_best > sa.stall_iter_best_limit <;>
      simp [terminate, h1, h2]
  · by_cases h1 : sa.stall_iter_accepted > sa.stall_iter_accepted_limit <;>
      by_cases h2 : sa.stall_iter_best > sa.stall_iter_best_limit <;>
      simp [terminate, h1, h2]
  · by_cases h1 : sa.stall_iter_accepted > sa.stall_iter_accepted_limit <;>
      by_cases h2 : sa.stall_iter_best > sa.stall_iter_best_limit <;>
      simp [terminate, h1, h2]
  · intro N sa1 p1 st1 kvs hl1 hl2 hc0 hb0 hrun hflags
    have hf := runTrace_stall_facts N sa prob st sa1 p1 st1 kvs hrun
    have hacc : sa1.stall_iter_accepted = N := by
      have := hf.2.2.2.1 hflags
      omega
    have hlima : sa1.stall_iter_accepted_limit = 10 := by
      have := hf.1
      omega
    have hlimb : sa1.stall_iter_best_limit = U64MAX := by
      have := hf.2.1
      omega
    have hbest : sa1.stall_iter_best ≤ N := by
      have := hf.2.2.1
      omega
    have hM : (11 : Nat) < U64MAX := by norm_num [U64MAX]
    constructor
    · intro hN
      subst hN
      have g1 : ¬ sa1.stall_iter_accepted > sa1.stall_iter_accepted_limit := by omega
      have g2 : ¬ sa1.stall_iter_best > sa1.stall_iter_best_limit := by omega
      simp [terminate, g1, g2]
    · intro hN
      subst hN
      have g1 : sa1.stall_iter_accepted > sa1.stall_iter_accepted_limit := by omega
      simp [terminate, g1]

/-- Witness for C6: the constant-cost fixture with `stall_accepted(10)`;
after 10 rejecting calls `terminate` says `NotTerminated`, after 11 it says
`AcceptedStallIterExceeded`. -/
theorem C6_terminate_stall_witness :
    terminate (saC 10 U64MAX U64MAX U64MAX U64MAX (0 + 10)) = .NotTerminated
    ∧ terminate (saC 10 U64MAX U64MAX U64MAX U64MAX (0 + 11)) = .AcceptedStallIterExceeded := by
  have hflags : ∀ (n : Nat) (kv : SAKV),
      kv ∈ (List.range n).map (fun k => kvC (0 + k)) → kv.acc = false := by
    intro n kv hkv
    simp only [List.mem_map] at hkv
    obtain ⟨x, _, rfl⟩ := hkv
    simp [kvC]
  have h10 := constRun 10 U64MAX U64MAX U64MAX U64MAX 10 0
    (by norm_num [U64MAX]) (by norm_num [U64MAX]) (by norm_num [U64MAX])
  have h11 := constRun 10 U64MAX U64MAX U64MAX U64MAX 11 0
    (by norm_num [U64MAX]) (by norm_num [U64MAX]) (by norm_num [U64MAX])
  have c10 := (C6_terminate_stall (saC 10 U64MAX U64MAX U64MAX U64MAX 0)
    (probC 0 0) stC).2.2.2 10 _ _ _ _ (by simp [saC]) (by simp [saC]) (by simp [saC])
    (by simp [saC]) h10 (hflags 10)
  have c11 := (C6_terminate_stall (saC 10 U64MAX U64MAX U64MAX U64MAX 0)
    (probC 0 0) stC).2.2.2 11 _ _ _ _ (by simp [saC]) (by simp [saC]) (by simp [saC])
    (by simp [saC]) h11 (hflags 11)
  exact ⟨c10.1 rfl, c11.2 rfl⟩

/-- `constStep` specialised to the `saE` family. -/
theorem constStepE (j c a : Nat) (h : j + 1 < U64MAX) :
    next_iter (saE j) (probC c a) stC
      = .ok (saE (j + 1), probC (c + 1) (a + 1), stC, kvE j) := by
  rw [constStep (saE j) c a
    (by norm_num [saE, rngC])
    (by simp only [saE]; omega)
    (by simp only [saE]; omega)
    (by simp only [saE]; omega)]
  simp [saE, rngC, kvE]

/-- C3 counterexample: with `init_temp = 10`, `TemperatureFast` and
`temp_iter = 0` entering the call, the code leaves `cur_temp = 5` after
`next_iter`, while the claim's formula `init_temp / (temp_iter + 1)` with the
pre-increment `temp_iter` gives 10; the two differ. -/
theorem C3_counterexample :
    (saAfter1 (next_iter (saC U64MAX U64MAX U64MAX U64MAX U64MAX 0) (probC 0 0) stC)).map
        SimulatedAnnealing.cur_temp = some 5
    ∧ (saC U64MAX U64MAX U64MAX U64MAX U64MAX 0).init_temp
        / (((saC U64MAX U64MAX U64MAX U64MAX U64MAX 0).temp_iter : ℝ) + 1) = 10
    ∧ (5 : ℝ) ≠ 10 := by
  refine ⟨?_, ?_, by norm_num⟩
  · rw [constStepC U64MAX U64MAX U64MAX U64MAX U64MAX 0 0 0
      (by norm_num [U64MAX]) (by norm_num [U64MAX]) (by norm_num [U64MAX])]
    simp [saAfter1, saC, schedTemp]
    norm_num
  · simp [saC]

/-- C3 amended: in every successful `next_iter` call in which no reanneal
trigger fires, `temp_iter` is incremented first and the new temperature is
the schedule formula at `k = temp_iter + 1` taken at the incremented value —
equivalently at `temp_iter + 2` in terms of the pre-call value (for
`TemperatureFast`, `cur_temp = init_temp / (temp_iter_before + 2)`), not at
`temp_iter_before + 1` as the claim stated. -/
theorem C3_amended_temperature {P E : Type} (sa : SimulatedAnnealing)
    (problem : SAProblem P E) (state : IterState P) (prev_param new_param : P)
    (new_cost : ℝ)
    (hparam : state.param = some prev_param)
    (hanneal : problem.anneal_fn prev_param sa.cur_temp = .ok new_param)
    (hcost : problem.cost_fn new_param = .ok new_cost)
    (hfix : sa.reanneal_iter_fixed < sa.reanneal_fixed)
    (hacc : sa.reanneal_iter_accepted + 1 < sa.reanneal_accepted)
    (hbest : sa.reanneal_iter_best + 1 < sa.reanneal_best) :
    ∃ sa1 problem1 state1 kv,
      next_iter sa problem state = .ok (sa1, problem1, state1, kv)
      ∧ sa1.temp_iter = sa.temp_iter + 1
      ∧ sa1.cur_temp = schedTemp sa.temp_func sa.init_temp (sa1.temp_iter + 1)
      ∧ sa1.cur_temp = schedTemp sa.temp_func sa.init_temp (sa.temp_iter + 2) := by
  simp only [next_iter, IterState.take_param, SAProblem.anneal, SAProblem.cost, hparam,
    hanneal, hcost]
  rw [reanneal_not_fired]
  · refine ⟨_, _, _, _, rfl, ?_, ?_, ?_⟩ <;>
      simp [update_temperature, update_stall_and_reanneal_iter]
  · simp only [update_stall_and_reanneal_iter]
    exact hfix
  · simp only [update_stall_and_reanneal_iter]
    split <;> omega
  · simp only [update_stall_and_reanneal_iter]
    split <;> omega

/-- Witness for the amended C3 at the constant-cost fixture. -/
theorem C3_amended_temperature_witness :
    ∃ sa1 problem1 state1 kv,
      next_iter (saC U64MAX U64MAX U64MAX U64MAX U64MAX 0) (probC 0 0) stC
        = .ok (sa1, problem1, state1, kv)
      ∧ sa1.temp_iter = (saC U64MAX U64MAX U64MAX U64MAX U64MAX 0).temp_iter + 1
      ∧ sa1.cur_temp = schedTemp (saC U64MAX U64MAX U64MAX U64MAX U64MAX 0).temp_func
          (saC U64MAX U64MAX U64MAX U64MAX U64MAX 0).init_temp (sa1.temp_iter + 1)
      ∧ sa1.cur_temp = schedTemp (saC U64MAX U64MAX U64MAX U64MAX U64MAX 0).temp_func
          (saC U64MAX U64MAX U64MAX U64MAX U64MAX 0).init_temp
          ((saC U64MAX U64MAX U64MAX U64MAX U64MAX 0).temp_iter + 2) :=
  C3_amended_temperature (saC U64MAX U64MAX U64MAX U64MAX U64MAX 0) (probC 0 0) stC
    () () 0 rfl rfl rfl
    (by simp only [saC]; norm_num [U64MAX])
    (by simp only [saC]; norm_num [U64MAX])
    (by simp only [saC]; norm_num [U64MAX])

/-- C4: with `init_temp = 10` and no reanneal trigger, after the first call
`cur_temp` is 5 under `TemperatureFast` and 2.5 under `Exponential(0.5)`;
after the second call it is 10/3 and 1.25 respectively. -/
theorem C4_temperature_schedules :
    finalTemp (runTrace (saC U64MAX U64MAX U64MAX U64MAX U64MAX 0) (probC 0 0) stC 1) = some 5
    ∧ finalTemp (runTrace (saC U64MAX U64MAX U64MAX U64MAX U64MAX 0) (probC 0 0) stC 2)
      = some (10 / 3)
    ∧ finalTemp (runTrace (saE 0) (probC 0 0) stC 1) = some (5 / 2)
    ∧ finalTemp (runTrace (saE 0) (probC 0 0) stC 2) = some (5 / 4) := by
  have hF1 := constRun U64MAX U64MAX U64MAX U64MAX U64MAX 1 0
    (by norm_num [U64MAX]) (by norm_num [U64MAX]) (by norm_num [U64MAX])
  have hF2 := constRun U64MAX U64MAX U64MAX U64MAX U64MAX 2 0
    (by norm_num [U64MAX]) (by norm_num [U64MAX]) (by norm_num [U64MAX])
  refine ⟨?_, ?_, ?_, ?_⟩
  · rw [hF1]
    norm_num [finalTemp, saAfter, saC, schedTemp]
  · rw [hF2]
    norm_num [finalTemp, saAfter, saC, schedTemp]
  · simp only [runTrace, constStepE 0 0 0 (by norm_num [U64MAX])]
    norm_num [finalTemp, saAfter, saE, schedTemp, Real.rpow_natCast]
  · simp only [runTrace, constStepE 0 0 0 (by norm_num [U64MAX]),
      constStepE 1 1 1 (by norm_num [U64MAX])]
    norm_num [finalTemp, saAfter, saE, schedTemp, Real.rpow_natCast]

/-- C5 counterexample: with `reannealing_fixed(5)`, the KV records of the
first five calls all report `ra_fi = false`; in particular the fifth call
does not report `r_fixed = true` as the claim states. -/
theorem C5_counterexample :
    (kvsAfter (runTrace (saC U64MAX U64MAX 5 U64MAX U64MAX 0) (probC 0 0) stC 5)).map
        (fun l => l.map SAKV.ra_fi)
      = some [false, false, false, false, false] := by
  rw [constRun U64MAX U64MAX 5 U64MAX U64MAX 5 0
    (by norm_num) (by norm_num [U64MAX]) (by norm_num [U64MAX])]
  simp [kvsAfter, kvC, List.range_succ]

/-- The sixth call of the `reannealing_fixed(5)` fixture: the fixed trigger
fires (`reanneal_iter_fixed = 5 ≥ 5`), the reanneal resets the counters,
`cur_temp` and `temp_iter`, and the subsequent increment and temperature
update leave `temp_iter = 1` and `cur_temp` at the schedule value for
`k = 2`. -/
theorem reanneal_sixth_step :
    next_iter (saC U64MAX U64MAX 5 U64MAX U64MAX 5) (probC 5 5) stC
      = .ok (sa6, probC 6 6, stC, kv6) := by
  have hb : acceptDecision 0 0 (schedTemp .TemperatureFast 10 (5 + 1)) (999 / 1000) = false :=
    acceptDecision_self _ _ _ (by norm_num)
  have hd : decide ((5 + 1 : Nat) ≥ U64MAX) = false := decide_eq_false (by norm_num [U64MAX])
  simp only [next_iter, IterState.take_param, SAProblem.anneal, SAProblem.cost, probC, stC,
    saC, rngC, update_stall_and_reanneal_iter, hb, newBestDecision_self]
  rw [reanneal_fired_fixed]
  · simp [update_temperature, IterState.setParam, IterState.setCost, sa6, kv6, rngC, hd,
      probC]
  · simp

/-- C5 amended: with `reannealing_fixed(5)` and no other trigger, the
reanneal triple first reports `r_fixed = true` on the SIXTH call to
`next_iter` (the counter compared during call `k` is `k - 1`), not on the
fifth, whose KV still reports `ra_fi = false`; on that sixth call `reanneal`
resets `cur_temp` to `init_temp` and `temp_iter` to 0 at the instant of the
reset, after which the step increments `temp_iter` to 1 and recomputes
`cur_temp` from the schedule at `k = 2` (here `10 / 2 = 5`). -/
theorem C5_amended_reanneal :
    (kvsAfter (runTrace (saC U64MAX U64MAX 5 U64MAX U64MAX 0) (probC 0 0) stC 6)).map
        (fun l => l.map SAKV.ra_fi)
      = some [false, false, false, false, false, true]
    ∧ saAfter (runTrace (saC U64MAX U64MAX 5 U64MAX U64MAX 0) (probC 0 0) stC 6) = some sa6
    ∧ sa6.temp_iter = 1
    ∧ sa6.cur_temp = 5
    ∧ sa6.init_temp = 10
    ∧ reanneal { saC U64MAX U64MAX 5 U64MAX U64MAX 5 with
        rng := rngC 6
        stall_iter_accepted := 6
        stall_iter_best := 6
        reanneal_iter_accepted := 6
        reanneal_iter_best := 6 }
      = ({ saC U64MAX U64MAX 5 U64MAX U64MAX 5 with
            rng := rngC 6
            stall_iter_accepted := 6
            stall_iter_best := 6
            reanneal_iter_fixed := 0
            reanneal_iter_accepted := 0
            reanneal_iter_best := 0
            cur_temp := 10
            temp_iter := 0 }, (true, false, false)) := by
  have h5 := constRun U64MAX U64MAX 5 U64MAX U64MAX 5 0
    (by norm_num) (by norm_num [U64MAX]) (by norm_num [U64MAX])
  simp only [Nat.zero_add] at h5
  have h1run : runTrace (saC U64MAX U64MAX 5 U64MAX U64MAX 5) (probC 5 5) stC 1
      = .ok (sa6, probC 6 6, stC, [kv6]) := by
    simp only [runTrace, reanneal_sixth_step]
  have h6 := runTrace_append 5 1 _ _ _ _ _ _ _ h5
  rw [h1run] at h6
  dsimp only at h6
  norm_num at h6
  refine ⟨?_, ?_, rfl, ?_, rfl, ?_⟩
  · rw [h6]
    simp [kvsAfter, kvC, kv6, List.range_succ]
  · rw [h6]
    simp [saAfter]
  · simp [sa6, schedTemp]
    norm_num
  · have hd6 : decide ((6 : Nat) ≥ U64MAX) = false := decide_eq_false (by norm_num [U64MAX])
    rw [reanneal_fired_fixed]
    · simp [saC, rngC, hd6]
    · simp [saC]

end Argmin
